import Mathlib

/-!
Shallow embedding of the `mdx-mermaid` Mermaid display component
(`src/config.model.ts` and the accompanying component source): the
configuration data model, the theme resolver, the mutation-observer
callback, the render effect and its engine actions, the render-completion
callback, the unmount cleanup, and the external-view opener.
-/

namespace MdxMermaid

/-- Theme key published by the host document attribute (`theme.helper` export). -/
def LIGHT_THEME_KEY : String := "light"

/-- Theme key published by the host document attribute (`theme.helper` export). -/
def DARK_THEME_KEY : String := "dark"

/-- Modelled from the spec: the fixed default light theme identifier of the
missing `src/theme.helper.ts` (only its import appears in the provided
sources). Spec section 8 concrete scenario 2 names the light default
identifier `default`. -/
def DEFAULT_LIGHT_THEME : String := "default"

/-- Modelled from the spec: the fixed default dark theme identifier of the
missing `src/theme.helper.ts`. Spec section 8 concrete scenario 1: host
attribute `dark` with no configuration resolves to theme `dark`. -/
def DEFAULT_DARK_THEME : String := "dark"

/-- The `theme` member of `Config` (config.model.ts lines 21-35): explicit
theme identifiers for the light and the dark case. -/
structure ThemeConfig where
  light : String
  dark : String
deriving Repr, DecidableEq

/-- The `mermaid` member of `Config` (`mermaidAPI.Config`): an opaque record
of engine options. The fields the component code interacts with (`theme`,
`startOnLoad`, written by the object spread in the render effect) are kept
explicit; every other option is opaque key-value data. -/
structure MermaidOpts where
  theme : Option String
  startOnLoad : Option Bool
  other : List (String × String)
deriving Repr, DecidableEq

/-- The `Config` record of config.model.ts: optional theme override, optional
engine options, optional external-view toggle. -/
structure Config where
  theme : Option ThemeConfig
  mermaid : Option MermaidOpts
  showOpenLink : Option Bool
deriving Repr, DecidableEq

/-- Modelled from the spec: `getTheme` of the missing `src/theme.helper.ts`
(the component imports it; the file itself is not under the provided
sources). Spec section 4.1 with the section 8 scenarios: the host attribute
value selects the dark case exactly when it equals the dark key (absent or
unrecognized values select the light case); a configured theme override
supplies the returned identifier for the selected case, otherwise the fixed
defaults are returned. Total and side-effect free. -/
def getTheme (attr : Option String) (config : Option Config) : String :=
  let isDark := attr = some DARK_THEME_KEY
  match config with
  | some cfg =>
    match cfg.theme with
    | some t => if isDark then t.dark else t.light
    | none => if isDark then DEFAULT_DARK_THEME else DEFAULT_LIGHT_THEME
  | none => if isDark then DEFAULT_DARK_THEME else DEFAULT_LIGHT_THEME

/-- Argument record passed to `mermaid.initialize` by the render effect. -/
structure InitArgs where
  startOnLoad : Bool
  theme : String
  other : List (String × String)
deriving Repr, DecidableEq

/-- The object literal `\x7b startOnLoad: true, ...config.mermaid, theme \x7d`
(and its `config.mermaid`-absent form `\x7b startOnLoad: true, theme \x7d`):
spread semantics, so a `startOnLoad` in the options overrides the literal
`true`, and the trailing `theme` member overrides any `theme` the options
carried. -/
def mkInitArgs (m : Option MermaidOpts) (theme : String) : InitArgs :=
  match m with
  | some o => ⟨o.startOnLoad.getD true, theme, o.other⟩
  | none => ⟨true, theme, []⟩

/-- Calls the component makes into the rendering engine: `mermaid.initialize`
and `mermaid.render` (the latter keyed by the unique svg identifier and
carrying the diagram text). -/
inductive EngineAction where
  | engineInit (args : InitArgs)
  | render (svgId : String) (chart : String)
deriving Repr, DecidableEq

/-- The unique identifier string passed to `mermaid.render` for global
counter value `i`. -/
def svgIdOf (i : Nat) : String := "mermaid-svg-" ++ toString i

/-- Predicate picking out `mermaid.render` calls. -/
def isRender : EngineAction → Bool
  | .render _ _ => true
  | .engineInit _ => false

/-- Predicate picking out `mermaid.initialize` calls. -/
def isInit : EngineAction → Bool
  | .engineInit _ => true
  | .render _ _ => false

/-- Result of one run of the render effect: engine actions performed in the
current scheduling turn, actions deferred via `setTimeout(render, 0)` to the
next turn, and the global counter after the run. -/
structure EffectResult where
  now : List EngineAction
  later : List EngineAction
  nextId : Nat
deriving Repr, DecidableEq

/-- One run of the render effect (dependency list `[theme, chart]`): with a
configuration present, initialize the engine (options merged with the theme
when engine options exist, bare `startOnLoad`/`theme` otherwise) and render
immediately; with no configuration, defer the bare render call to the next
scheduling turn. Either way `render` uses `mermaid-svg-` plus the current
global counter and then increments the counter. -/
def renderEffect (config : Option Config) (theme chart : String) (i : Nat) :
    EffectResult :=
  match config with
  | some cfg =>
    ⟨[EngineAction.engineInit (mkInitArgs cfg.mermaid theme),
      EngineAction.render (svgIdOf i) chart], [], i + 1⟩
  | none => ⟨[], [EngineAction.render (svgIdOf i) chart], i + 1⟩

/-- All engine actions of one effect run, current turn first. -/
def actionsOf (r : EffectResult) : List EngineAction := r.now ++ r.later

/-- The completion callback handed to `mermaid.render`:
`(renderedSvg) => setSvg(renderedSvg)`. It stores the engine output
unconditionally; the previous svg state is discarded with no comparison of
request identifiers. -/
def onRenderComplete (svg renderedSvg : String) : String := renderedSvg

/-- The initial svg state: `useState<string>('')`. -/
def initialSvg : String := ""

/-- The svg state after a sequence of engine completions has been applied,
starting from the initial empty state. `artifact i` is the engine output for
the request issued at counter value `i`, and `order` is the order in which
the asynchronous completion callbacks run. -/
def displayedAfter (artifact : Nat → String) (order : List Nat) : String :=
  order.foldl (fun s i => onRenderComplete s (artifact i)) initialSvg

/-- One record of a host-document mutation batch entry: its type, the
attribute it touched (when an attribute mutation), and the `data-theme`
value of the mutation target at callback time. -/
structure Mutation where
  type : String
  attributeName : Option String
  targetThemeAttr : Option String
deriving Repr, DecidableEq

/-- The MutationObserver callback: scan the batch, skip every mutation that
is not an `attributes` mutation of `data-theme`, and on the first relevant
one publish `getTheme` of the target (then `break`). Returns the published
theme, or `none` when no relevant mutation exists. -/
def observerCallback (config : Option Config) : List Mutation → Option String
  | [] => none
  | m :: rest =>
    if m.type = "attributes" ∧ m.attributeName = some "data-theme" then
      some (getTheme m.targetThemeAttr config)
    else observerCallback config rest

/-- Engine actions caused downstream by one observer-callback invocation:
the published theme is committed through `setTheme`, and the render effect
(dependency list `[theme, chart]`) re-runs only when the committed theme
differs from the current one — equal values leave the dependencies
unchanged, so no effect run and no engine action occurs. -/
def requestsAfterMutations (config : Option Config) (curTheme chart : String)
    (i : Nat) (muts : List Mutation) : List EngineAction :=
  match observerCallback config muts with
  | none => []
  | some t => if t = curTheme then [] else actionsOf (renderEffect config t chart i)

/-- The effect cleanup returned for unmount: `observer.disconnect()` inside
`try ... catch \x7b\x7d`. The argument is the outcome of the disconnect call
(which may throw); the catch arm swallows any error and does nothing. -/
def observerCleanup (disconnectResult : Except String Unit) : Except String Unit :=
  match disconnectResult with
  | Except.ok _ => Except.ok ()
  | Except.error _ => Except.ok ()

/-- The rendered output tree: the bare `<div></div>` placeholder of the
`typeof window === 'undefined'` guard, or the wrapper div holding the
optional external-view opener and the svg container. -/
inductive RenderedTree where
  | emptyDiv
  | wrapper (showOpener : Bool) (openerTheme : String) (svgHtml : String)
deriving Repr, DecidableEq

/-- The markup injected into the svg container (`dangerouslySetInnerHTML`);
the placeholder div carries none. -/
def displayedMarkup : RenderedTree → String
  | .emptyDiv => ""
  | .wrapper _ _ svg => svg

/-- Whether the external-view opener is rendered: `config?.showOpenLink &&`,
truthy exactly when the configuration is present and sets it to `true`. -/
def showOpener (config : Option Config) : Bool :=
  match config with
  | some cfg => cfg.showOpenLink.getD false
  | none => false

/-- Everything observable from mounting the component once: the rendered
tree (before any completion callback has run, so the svg state is still
`initialSvg`), whether the attribute observer was subscribed, and the engine
actions issued by the first render-effect run. The
`typeof window === 'undefined'` guard returns the placeholder before any
hook runs: no state, no subscription, no effect. -/
structure MountOutcome where
  tree : RenderedTree
  subscribed : Bool
  engineActions : List EngineAction
deriving Repr, DecidableEq

/-- Mounting the component with host theme attribute `attr`, diagram `chart`,
configuration `config`, at global counter `i`. -/
def mountComponent (windowAvailable : Bool) (attr : Option String)
    (chart : String) (config : Option Config) (i : Nat) : MountOutcome :=
  if windowAvailable then
    let theme := getTheme attr config
    ⟨RenderedTree.wrapper (showOpener config) theme initialSvg, true,
      actionsOf (renderEffect config theme chart i)⟩
  else ⟨RenderedTree.emptyDiv, false, []⟩

/-- Observable outcome of the external-view click handler. -/
inductive OpenAction where
  | noop
  | openWindow (blobContent : String) (blobType : String)
deriving Repr, DecidableEq

/-- The `openSvgInWindow` click handler: `if (!svg) return` (the empty string
is falsy), otherwise build a Blob of type `image/svg+xml` from the svg markup
and ask the host to open its object URL in a new window. -/
def openSvgInWindow (svg : String) : OpenAction :=
  if svg = "" then OpenAction.noop
  else OpenAction.openWindow svg "image/svg+xml"

/-- Executing the render call of one effect run against a fallible engine:
`mermaid.render` sits in the effect body with no `try`/`catch`, so an engine
error escapes the run unchanged, while a successful render feeds the
completion callback. -/
def runEffectWithEngine (engine : String → String → Except String String)
    (chart : String) (i : Nat) (svg : String) : Except String String :=
  match engine (svgIdOf i) chart with
  | Except.error e => Except.error e
  | Except.ok rendered => Except.ok (onRenderComplete svg rendered)

/-- Deduplication of consecutive equal `(theme, chart)` snapshots relative
to a previous value: the dependency list `[theme, chart]` re-runs the effect
only for snapshots that differ from their predecessor. -/
def pendingAfter (prev : String × String) :
    List (String × String) → List (String × String)
  | [] => []
  | x :: xs => if x = prev then pendingAfter prev xs else x :: pendingAfter x xs

/-- The transitions into Pending over a mounted component's history of
committed `(theme, chart)` snapshots: the mount snapshot, then every
snapshot differing from its predecessor. -/
def pendingTransitions : List (String × String) → List (String × String)
  | [] => []
  | x :: xs => x :: pendingAfter x xs

/-- The effect runs produced by a list of Pending transitions, threading the
global counter through. -/
def runHistory (config : Option Config) : Nat → List (String × String) →
    List EffectResult
  | _, [] => []
  | i, tc :: rest =>
    renderEffect config tc.1 tc.2 i
      :: runHistory config (renderEffect config tc.1 tc.2 i).nextId rest

/-- The global counter after a list of Pending transitions has run. -/
def finalId (config : Option Config) : Nat → List (String × String) → Nat
  | i, [] => i
  | i, tc :: rest => finalId config (renderEffect config tc.1 tc.2 i).nextId rest

/-- Total number of `mermaid.render` calls over a list of effect runs. -/
def totalRenders (runs : List EffectResult) : Nat :=
  (runs.map (fun r => (actionsOf r).countP isRender)).sum

/-- Concrete engine outputs used in the out-of-order completion scenario:
the request issued at counter 0 renders to `svgA`, every later one to
`svgB`. -/
def exArtifact : Nat → String := fun i => if i = 0 then "svgA" else "svgB"

/-- Concrete configuration carrying a theme override with distinct light and
dark identifiers. -/
def exOverrideConfig : Config := ⟨some ⟨"default", "forest"⟩, none, none⟩

/-- Concrete mutation batch with no `data-theme` attribute mutation: a child
mutation and an unrelated attribute mutation. -/
def exIrrelevantMuts : List Mutation :=
  [⟨"childList", none, none⟩, ⟨"attributes", some "class", some "dark"⟩]

/-- Concrete mutation batch whose only entry is a `data-theme` mutation that
resolves to the dark theme. -/
def exSameThemeMuts : List Mutation :=
  [⟨"attributes", some "data-theme", some "dark"⟩]

/-- Concrete rendering engine that rejects every request, as mermaid does on
malformed diagram text. -/
def failingEngine : String → String → Except String String :=
  fun _ _ => Except.error "Syntax error in graph"

/-! Helper lemmas shared by the claim theorems. -/

theorem countP_isRender_renderEffect (config : Option Config)
    (theme chart : String) (i : Nat) :
    (actionsOf (renderEffect config theme chart i)).countP isRender = 1 := by
  cases config <;> rfl

theorem nextId_renderEffect (config : Option Config) (theme chart : String)
    (i : Nat) : (renderEffect config theme chart i).nextId = i + 1 := by
  cases config <;> rfl

theorem totalRenders_runHistory (config : Option Config) :
    ∀ (l : List (String × String)) (i0 : Nat),
      totalRenders (runHistory config i0 l) = l.length
  | [], _ => rfl
  | tc :: rest, i0 => by
    have ih := totalRenders_runHistory config rest
      (renderEffect config tc.1 tc.2 i0).nextId
    simp only [runHistory, totalRenders, List.map_cons, List.sum_cons,
      List.length_cons]
    simp only [totalRenders] at ih
    rw [countP_isRender_renderEffect, ih]
    omega

theorem finalId_runHistory (config : Option Config) :
    ∀ (l : List (String × String)) (i0 : Nat),
      finalId config i0 l = i0 + l.length
  | [], _ => by simp [finalId]
  | tc :: rest, i0 => by
    have ih := finalId_runHistory config rest
      (renderEffect config tc.1 tc.2 i0).nextId
    simp only [finalId, List.length_cons]
    rw [ih, nextId_renderEffect]
    omega

theorem observerCallback_none_of_irrelevant (config : Option Config) :
    ∀ (muts : List Mutation),
      (∀ m ∈ muts, ¬(m.type = "attributes" ∧ m.attributeName = some "data-theme")) →
      observerCallback config muts = none
  | [], _ => rfl
  | m :: rest, h => by
    have hm := h m (List.mem_cons_self m rest)
    simp only [observerCallback]
    rw [if_neg hm]
    exact observerCallback_none_of_irrelevant config rest
      (fun x hx => h x (List.mem_cons_of_mem m hx))

theorem foldl_completion_getLast (artifact : Nat → String) :
    ∀ (l : List Nat) (x : Nat) (s : String),
      (x :: l).foldl (fun acc i => onRenderComplete acc (artifact i)) s
        = artifact ((x :: l).getLast (List.cons_ne_nil x l))
  | [], _, _ => rfl
  | y :: ys, x, s => by
    have ih := foldl_completion_getLast artifact ys y
      (onRenderComplete s (artifact x))
    simp only [List.foldl_cons] at ih ⊢
    rw [ih]
    congr 1

/-! Claim theorems. -/

/-- Claim C1, counterexample: the claim that a completion answering an older
request never overwrites the svg of a newer request, for every completion
order, is false: the completion callback stores its argument unconditionally,
so issuing requests 0 then 1 and running the callbacks in the order 1 then 0
leaves request 0's artifact displayed instead of request 1's. -/
theorem c1_stale_overwrite_counterexample :
    ¬ (∀ (artifact : Nat → String) (order : List Nat),
        order.Perm [0, 1] → displayedAfter artifact order = artifact 1) := by
  intro h
  have hd := h exArtifact [1, 0] (List.Perm.swap 0 1 [])
  revert hd
  decide

/-- Claim C1 (amended): the displayed artifact is the result of the most
recently completed engine callback, not of the most recently issued request:
`setSvg` runs unconditionally in the completion callback with no
sequence-number comparison, so after any non-empty sequence of completions
the displayed svg is the last completion's artifact, and an older request's
late completion does overwrite a newer one. -/
theorem c1_amended_last_completion_wins (artifact : Nat → String)
    (order : List Nat) (h : order ≠ []) :
    displayedAfter artifact order = artifact (order.getLast h) := by
  cases order with
  | nil => exact absurd rfl h
  | cons x l => exact foldl_completion_getLast artifact l x initialSvg

/-- Claim C1, witness for the amended theorem at a concrete out-of-order
schedule: completions in the order 1 then 0 display request 0's artifact. -/
theorem c1_amended_witness :
    displayedAfter exArtifact [1, 0] = exArtifact 0 := by
  have h := c1_amended_last_completion_wins exArtifact [1, 0] (by decide)
  simpa using h

/-- Claim C2, counterexample: the claim that, when engine options are absent,
engine initialization is deferred to the next scheduling turn (before the
first render) is false: with no configuration at all, the effect defers the
bare render call and performs no initialization whatsoever, so the deferred
turn contains no `mermaid.initialize` action. -/
theorem c2_deferred_init_counterexample :
    ¬ (∀ (config : Option Config) (theme chart : String) (i : Nat),
        config.bind Config.mermaid = none →
        ∃ args, EngineAction.engineInit args
          ∈ (renderEffect config theme chart i).later) := by
  intro h
  obtain ⟨args, hmem⟩ := h none "default" "graph TD; A-->B;" 0 rfl
  simp [renderEffect] at hmem

/-- Claim C2 (amended): when engine options are present the engine is
(re-)initialized immediately before that render with the options combined
with the resolved theme key, the theme key overriding any theme field of the
options; when the configuration is present without engine options the engine
is still initialized immediately before every render, with only
`startOnLoad` and the theme; when the configuration is absent entirely no
engine initialization is performed by the component at all, and it is the
render call itself that is deferred to the next scheduling turn. -/
theorem c2_amended_init_policy (cfg : Config) (opts : MermaidOpts)
    (theme chart : String) (i : Nat) :
    (renderEffect (some cfg) theme chart i).now
      = [EngineAction.engineInit (mkInitArgs cfg.mermaid theme),
         EngineAction.render (svgIdOf i) chart]
    ∧ (mkInitArgs (some opts) theme).theme = theme
    ∧ mkInitArgs none theme = ⟨true, theme, []⟩
    ∧ (renderEffect none theme chart i).now = []
    ∧ (renderEffect none theme chart i).later
        = [EngineAction.render (svgIdOf i) chart]
    ∧ (actionsOf (renderEffect none theme chart i)).countP isInit = 0 :=
  ⟨rfl, rfl, rfl, rfl, rfl, rfl⟩

/-- Claim C3, counterexample: the claim that with a theme override present
the host attribute is ignored entirely is false: under the override
configuration with light key `default` and dark key `forest`, the host
attribute `dark` resolves to `forest` while `light` resolves to `default` —
the attribute still selects which configured key is returned. -/
theorem c3_attr_ignored_counterexample :
    ¬ (∀ (attr attr2 : Option String) (cfg : Config),
        cfg.theme.isSome = true →
        getTheme attr (some cfg) = getTheme attr2 (some cfg)) := by
  intro h
  have hd := h (some "dark") (some "light") exOverrideConfig rfl
  revert hd
  decide

/-- Claim C3 (amended): `getTheme` is total and side-effect free; when the
theme override is present it returns the configured key for the light/dark
case selected by the host attribute (the override replaces the default keys,
not the light/dark detection); otherwise the attribute maps to the fixed
defaults, with the light default whenever the attribute is absent or not the
dark key. -/
theorem c3_amended_getTheme_spec (attr : Option String) (t : ThemeConfig)
    (m : Option MermaidOpts) (s : Option Bool) :
    getTheme attr (some ⟨some t, m, s⟩)
      = (if attr = some DARK_THEME_KEY then t.dark else t.light)
    ∧ getTheme attr (some ⟨none, m, s⟩)
      = (if attr = some DARK_THEME_KEY then DEFAULT_DARK_THEME
         else DEFAULT_LIGHT_THEME)
    ∧ getTheme attr none
      = (if attr = some DARK_THEME_KEY then DEFAULT_DARK_THEME
         else DEFAULT_LIGHT_THEME)
    ∧ getTheme none (some ⟨none, m, s⟩) = DEFAULT_LIGHT_THEME
    ∧ (attr ≠ some DARK_THEME_KEY →
        getTheme attr (some ⟨none, m, s⟩) = DEFAULT_LIGHT_THEME) := by
  refine ⟨rfl, rfl, rfl, rfl, fun h => ?_⟩
  simp [getTheme, h]

/-- Claim C3, witness for the amended theorem: an unrecognized host attribute
value with no override resolves to the light default. -/
theorem c3_amended_witness :
    getTheme (some "system") (some ⟨none, none, none⟩) = DEFAULT_LIGHT_THEME :=
  (c3_amended_getTheme_spec (some "system") ⟨"default", "dark"⟩ none
    none).2.2.2.2 (by decide)

/-- Claim C4: every transition into Pending issues exactly one render
request and increments the counter by one: a single effect run contains
exactly one `mermaid.render` action, carrying the diagram text and the
current counter's identifier, and ends with the counter incremented; with a
configuration present the run opens with initialization merged with the
resolved theme; over any history of committed `(theme, chart)` snapshots the
number of render requests equals the number of Pending transitions (mount
plus every change) and the counter advances by exactly that number; and
mounting issues exactly one render request computed from the resolved
default/overridden theme. -/
theorem c4_one_request_per_pending (config : Option Config) (cfg : Config)
    (attr : Option String) (theme chart : String) (i i0 : Nat)
    (hist : List (String × String)) :
    (actionsOf (renderEffect config theme chart i)).countP isRender = 1
    ∧ EngineAction.render (svgIdOf i) chart
        ∈ actionsOf (renderEffect config theme chart i)
    ∧ (renderEffect config theme chart i).nextId = i + 1
    ∧ (renderEffect (some cfg) theme chart i).now
        = [EngineAction.engineInit (mkInitArgs cfg.mermaid theme),
           EngineAction.render (svgIdOf i) chart]
    ∧ totalRenders (runHistory config i0 (pendingTransitions hist))
        = (pendingTransitions hist).length
    ∧ finalId config i0 (pendingTransitions hist)
        = i0 + (pendingTransitions hist).length
    ∧ (mountComponent true attr chart config i).engineActions
        = actionsOf (renderEffect config (getTheme attr config) chart i)
    ∧ (mountComponent true attr chart config i).engineActions.countP isRender
        = 1 := by
  refine ⟨countP_isRender_renderEffect config theme chart i, ?_,
    nextId_renderEffect config theme chart i, rfl,
    totalRenders_runHistory config (pendingTransitions hist) i0,
    finalId_runHistory config (pendingTransitions hist) i0, rfl,
    countP_isRender_renderEffect config (getTheme attr config) chart i⟩
  cases config <;> simp [actionsOf, renderEffect]

/-- Claim C5: unrelated mutations never cause a theme publication (the
callback skips every mutation that is not an `attributes` mutation of
`data-theme`), and a publication equal to the current theme leaves the
effect dependencies unchanged, so no render request is issued downstream. -/
theorem c5_observer_frame (config : Option Config) (curTheme chart : String)
    (i : Nat) (muts : List Mutation) :
    ((∀ m ∈ muts,
        ¬(m.type = "attributes" ∧ m.attributeName = some "data-theme")) →
      observerCallback config muts = none
      ∧ requestsAfterMutations config curTheme chart i muts = [])
    ∧ (observerCallback config muts = some curTheme →
        requestsAfterMutations config curTheme chart i muts = []) := by
  constructor
  · intro h
    have hnone := observerCallback_none_of_irrelevant config muts h
    exact ⟨hnone, by simp [requestsAfterMutations, hnone]⟩
  · intro h
    simp [requestsAfterMutations, h]

/-- Claim C5, witness: a batch of a child mutation plus an unrelated
attribute mutation publishes nothing, and a `data-theme` mutation resolving
to the already-current dark theme issues no render request. -/
theorem c5_observer_frame_witness :
    observerCallback none exIrrelevantMuts = none
    ∧ requestsAfterMutations none "dark" "graph TD; A-->B;" 0
        exSameThemeMuts = [] := by
  constructor
  · exact ((c5_observer_frame none "dark" "graph TD; A-->B;" 0
      exIrrelevantMuts).1 (by decide)).1
  · exact (c5_observer_frame none "dark" "graph TD; A-->B;" 0
      exSameThemeMuts).2 (by decide)

/-- Claim C6: the unmount cleanup never throws: whatever the outcome of
`observer.disconnect()`, including an error, the `try`/`catch` wrapper
swallows it and the cleanup returns normally. -/
theorem c6_teardown_never_throws (r : Except String Unit) :
    observerCleanup r = Except.ok () := by
  cases r <;> rfl

/-- Claim C7: with the host document unavailable the component returns the
empty placeholder without raising, subscribes to no attribute observer, and
issues no engine action. -/
theorem c7_window_unavailable (attr : Option String) (chart : String)
    (config : Option Config) (i : Nat) :
    mountComponent false attr chart config i
      = ⟨RenderedTree.emptyDiv, false, []⟩
    ∧ displayedMarkup (mountComponent false attr chart config i).tree = ""
    ∧ (mountComponent false attr chart config i).subscribed = false
    ∧ (mountComponent false attr chart config i).engineActions = [] :=
  ⟨rfl, rfl, rfl, rfl⟩

/-- Claim C8: an engine rejection is not caught inside the effect: the run
propagates the very same error to the caller and substitutes no fallback
artifact. -/
theorem c8_engine_error_propagates
    (engine : String → String → Except String String) (chart svg : String)
    (i : Nat) (e : String) (h : engine (svgIdOf i) chart = Except.error e) :
    runEffectWithEngine engine chart i svg = Except.error e := by
  simp [runEffectWithEngine, h]

/-- Claim C8, witness: a run against the always-failing engine propagates
the engine's error unchanged. -/
theorem c8_engine_error_witness :
    runEffectWithEngine failingEngine "bad chart" 0 initialSvg
      = Except.error "Syntax error in graph" :=
  c8_engine_error_propagates failingEngine "bad chart" initialSvg 0
    "Syntax error in graph" rfl

/-- Claim C9: the external-view click handler is a no-op (and raises no
error) on the empty artifact — in particular on the initial svg state — and
on a non-empty artifact it builds an `image/svg+xml` resource from exactly
the artifact's markup and asks the host to open it. -/
theorem c9_open_external (svg : String) :
    openSvgInWindow "" = OpenAction.noop
    ∧ openSvgInWindow initialSvg = OpenAction.noop
    ∧ (svg ≠ "" →
        openSvgInWindow svg = OpenAction.openWindow svg "image/svg+xml") := by
  refine ⟨rfl, rfl, fun h => ?_⟩
  simp [openSvgInWindow, h]

/-- Claim C9, witness: a concrete non-empty artifact is opened as an
`image/svg+xml` resource built from its markup. -/
theorem c9_open_external_witness :
    openSvgInWindow "<svg></svg>"
      = OpenAction.openWindow "<svg></svg>" "image/svg+xml" :=
  (c9_open_external "<svg></svg>").2.2 (by decide)

/-- Claim C10: immediately after mount, before any completion callback has
run, the output container's markup is exactly the empty string for every
chart, configuration and host attribute, and the external-view action on
that displayed artifact is a no-op. -/
theorem c10_initial_artifact_empty (attr : Option String) (chart : String)
    (config : Option Config) (i : Nat) :
    displayedMarkup (mountComponent true attr chart config i).tree = ""
    ∧ (mountComponent true attr chart config i).tree
        = RenderedTree.wrapper (showOpener config) (getTheme attr config)
            initialSvg
    ∧ openSvgInWindow
        (displayedMarkup (mountComponent true attr chart config i).tree)
        = OpenAction.noop :=
  ⟨rfl, rfl, rfl⟩

end MdxMermaid
